import Mathlib

/-!
Shallow embedding of the request/retry/adapter core of the
`coinfantasy365/hedera-gateway` client SDK, together with theorems settling
the specification claims about it.

Embedded source files:
 * `src/security.ts` (unnamed part_002): validators, `sanitizeEventData`,
   `redactSensitiveData`, `RateLimiter`;
 * `src/client.ts`: `APIClient.shouldRetry` / `APIClient.retryRequest`;
 * `src/wallet.ts` (unnamed part_005): `WalletManager`;
 * `src/wallet/HashConnectAdapter.ts` (unnamed part_004) and
   `src/wallet/WalletConnectAdapter.ts`: the two adapter variants.

JavaScript runtime values that the code inspects (`Object.entries`,
`typeof`, `Array.isArray`) are modelled by the inductive `JSValue`; plain
objects are association lists in insertion order, which is the order
`Object.entries` and object spread observe.
-/

/-- A JavaScript runtime value as far as the embedded code distinguishes
them: strings, numbers, booleans, `null`, arrays, and plain objects
(insertion-ordered key/value lists). -/
inductive JSValue where
  | str : String → JSValue
  | num : Int → JSValue
  | bool : Bool → JSValue
  | null : JSValue
  | arr : List JSValue → JSValue
  | obj : List (String × JSValue) → JSValue

/-- A character matched by the JavaScript regex class `[\x00-\x1F\x7F]`
(control bytes). For code points below 0x80, UTF-16 code units coincide
with code points, so matching on `Char` is exact. -/
def isControlByte (c : Char) : Bool :=
  c.toNat ≤ 0x1F || c.toNat == 0x7F

/-- `value.replace(/[\x00-\x1F\x7F]/g, '')` from `sanitizeEventData`. -/
def stripControlChars (s : String) : String :=
  String.mk (s.data.filter (fun c => !isControlByte c))

mutual
/-- `sanitizeEventData` from `src/security.ts`: per entry, strings are
stripped of control bytes, plain objects are recursed into, and every
other value — arrays included, by the `!Array.isArray(value)` guard —
is copied unchanged. -/
def sanitizeEventData : List (String × JSValue) → List (String × JSValue)
  | [] => []
  | (k, v) :: rest => (k, sanitizeEntry v) :: sanitizeEventData rest

/-- The per-value branch of `sanitizeEventData`'s loop body. -/
def sanitizeEntry : JSValue → JSValue
  | .str s => .str (stripControlChars s)
  | .obj kvs => .obj (sanitizeEventData kvs)
  | v => v
end

/-- Does `needle` occur at the start of `hay`? (char-list version of a
JavaScript `startsWith`). -/
def charsStartWith : List Char → List Char → Bool
  | _, [] => true
  | [], _ :: _ => false
  | a :: as, b :: bs => a == b && charsStartWith as bs

/-- Does `needle` occur contiguously inside `hay`? -/
def charsContain (hay needle : List Char) : Bool :=
  charsStartWith hay needle ||
    match hay with
    | [] => false
    | _ :: t => charsContain t needle

/-- JavaScript `hay.includes(needle)` (substring containment). -/
def strIncludes (hay needle : String) : Bool :=
  charsContain hay.data needle.data

/-- The `sensitiveKeys` array of `redactSensitiveData`, verbatim. -/
def sensitiveKeys : List String :=
  ["apiKey", "api_key", "apikey",
   "privateKey", "private_key", "privatekey",
   "operatorKey", "operator_key",
   "password", "secret", "token",
   "authorization", "auth"]

/-- ASCII case folding of one character, as JavaScript `toLowerCase`
performs it on the ASCII range (the range all keys of interest live in):
each of `A`–`Z` maps to its lowercase pair, everything else is kept. -/
def charToLower (c : Char) : Char :=
  match c with
  | 'A' => 'a' | 'B' => 'b' | 'C' => 'c' | 'D' => 'd' | 'E' => 'e'
  | 'F' => 'f' | 'G' => 'g' | 'H' => 'h' | 'I' => 'i' | 'J' => 'j'
  | 'K' => 'k' | 'L' => 'l' | 'M' => 'm' | 'N' => 'n' | 'O' => 'o'
  | 'P' => 'p' | 'Q' => 'q' | 'R' => 'r' | 'S' => 's' | 'T' => 't'
  | 'U' => 'u' | 'V' => 'v' | 'W' => 'w' | 'X' => 'x' | 'Y' => 'y'
  | 'Z' => 'z'
  | c => c

/-- JavaScript `key.toLowerCase()` (ASCII case folding). -/
def strToLower (s : String) : String :=
  String.mk (s.data.map charToLower)

/-- `sensitiveKeys.some(sk => key.toLowerCase().includes(sk))`. -/
def isSensitiveKey (key : String) : Bool :=
  sensitiveKeys.any (fun sk => strIncludes (strToLower key) sk)

mutual
/-- `redactSensitiveData` from `src/security.ts`: sensitive keys get the
`'[REDACTED]'` marker, plain-object values are recursed into, everything
else is copied unchanged. -/
def redactSensitiveData : List (String × JSValue) → List (String × JSValue)
  | [] => []
  | (k, v) :: rest => (k, redactEntry k v) :: redactSensitiveData rest

/-- The per-entry branch of `redactSensitiveData`'s loop body. -/
def redactEntry (k : String) (v : JSValue) : JSValue :=
  if isSensitiveKey k then .str "[REDACTED]"
  else
    match v with
    | .obj kvs => .obj (redactSensitiveData kvs)
    | v => v
end

/-- `isValidAccountId` from `src/security.ts`: the regex `^0\.0\.\d+$`
— a string matches iff it is exactly `0.0.` followed by one or more
digits. -/
def isValidAccountId (s : String) : Bool :=
  match s.data with
  | '0' :: '.' :: '0' :: '.' :: ds => !ds.isEmpty && ds.all Char.isDigit
  | _ => false

/-- `isValidNetwork` from `src/security.ts`. -/
def isValidNetwork (network : String) : Bool :=
  network == "testnet" || network == "mainnet"

/-! ## APIClient retry layer (`src/client.ts`) -/

/-- The resolved `retryOptions` of `APIClient` (constructor spreads the
caller's partial options over these defaults, so every field is present
afterwards; millisecond delays as natural numbers). -/
structure RetryOptions where
  maxRetries : Nat
  baseDelay : Nat
  maxDelay : Nat
  exponentialBase : Nat

/-- The constructor's default `retryOptions`. -/
def defaultRetryOptions : RetryOptions :=
  { maxRetries := 3, baseDelay := 1000, maxDelay := 30000, exponentialBase := 2 }

/-- The parts of an `AxiosError` that `shouldRetry`/`retryRequest`
inspect: whether it is an axios error at all, the response status if a
response was received, the transport error `code`, and the request
config if present — carrying the `__retryCount` counter (the code reads
it with `?? 0`, so only its defaulted value matters). -/
structure AxiosErrorModel where
  isAxiosError : Bool
  responseStatus : Option Nat
  code : Option String
  config : Option Nat

/-- `APIClient.shouldRetry`, line for line: non-axios errors and errors
without a config are not retried; a config whose retry count has reached
`maxRetries` is not retried; otherwise retry iff no response, or code
`ECONNABORTED`, or status in `[500,600)`, or status `429`. -/
def shouldRetry (opts : RetryOptions) (e : AxiosErrorModel) : Bool :=
  if !e.isAxiosError then false
  else
    match e.config with
    | none => false
    | some retryCount =>
      if retryCount ≥ opts.maxRetries then false
      else
        e.responseStatus.isNone ||
        e.code == some "ECONNABORTED" ||
        (match e.responseStatus with
         | some s => (500 ≤ s && s < 600) || s == 429
         | none => false)

/-- The backoff delay computed by `APIClient.retryRequest` once the
retry counter has been incremented to `retryCount` (≥ 1):
`min(baseDelay * exponentialBase^(retryCount - 1), maxDelay)`. -/
def retryDelay (opts : RetryOptions) (retryCount : Nat) : Nat :=
  min (opts.baseDelay * opts.exponentialBase ^ (retryCount - 1)) opts.maxDelay

/-- Axios resolves a response iff `validateStatus` holds, which by
default is `200 ≤ status < 300`. -/
def isSuccessStatus (s : Nat) : Bool :=
  200 ≤ s && s < 300

/-- One request driven through the response interceptor against a
transport that answers the successive attempts with the statuses in
`transport`. Returns the final status if an attempt succeeded, the retry
count reached, and the list of backoff delays slept. Each failed attempt
becomes an axios error carrying its response status and the config's
current `__retryCount`; if `shouldRetry` accepts it, `retryRequest`
increments the counter, sleeps `retryDelay`, and reissues the request
(the next element of `transport`), else the error propagates. -/
def runRequest (opts : RetryOptions) (count : Nat) :
    List Nat → Option Nat × Nat × List Nat
  | [] => (none, count, [])
  | s :: rest =>
    if isSuccessStatus s then (some s, count, [])
    else
      let e : AxiosErrorModel :=
        { isAxiosError := true, responseStatus := some s,
          code := none, config := some count }
      if shouldRetry opts e then
        let d := retryDelay opts (count + 1)
        let r := runRequest opts (count + 1) rest
        (r.1, r.2.1, d :: r.2.2)
      else (none, count, [])

/-! ## RateLimiter (`src/security.ts`) -/

/-- One entry into `RateLimiter.acquire`, up to its first suspension:
prune timestamps with `now - t >= windowMs`, then either grant (append
`now` to the pruned window and return) or report the wait time
`windowMs - (now - oldestRemaining)` before the recursive retry.
Timestamps are integers (`Date.now()` milliseconds). -/
inductive AcquireOutcome where
  | granted : List Int → AcquireOutcome
  | waitThenRetry : Int → List Int → AcquireOutcome

/-- The body of `RateLimiter.acquire` up to its suspension point. -/
def acquireStep (maxRequests : Nat) (windowMs : Int) (requests : List Int)
    (now : Int) : AcquireOutcome :=
  let active := requests.filter (fun t => now - t < windowMs)
  if active.length ≥ maxRequests then
    let oldest := active.headD 0
    .waitThenRetry (windowMs - (now - oldest)) active
  else
    .granted (active ++ [now])

/-- `RateLimiter.acquire` run to completion with recursion fuel: on a
full window it sleeps the computed wait time (advancing the clock by
exactly that much) and re-enters; on a free slot it records `now`.
Returns the window after the grant and the grant time. -/
def acquireRun (maxRequests : Nat) (windowMs : Int) :
    Nat → List Int → Int → Option (List Int × Int)
  | 0, _, _ => none
  | fuel + 1, requests, now =>
    match acquireStep maxRequests windowMs requests now with
    | .granted w => some (w, now)
    | .waitThenRetry wait active =>
      acquireRun maxRequests windowMs fuel active (now + wait)

/-- `n` sequential `acquire()` calls starting from window `requests` at
time `now`, each call instantaneous apart from its own waits. Returns
the window and clock after the last grant. -/
def acquireCalls (maxRequests : Nat) (windowMs : Int) (fuel : Nat) :
    Nat → List Int → Int → Option (List Int × Int)
  | 0, requests, now => some (requests, now)
  | n + 1, requests, now =>
    match acquireRun maxRequests windowMs fuel requests now with
    | none => none
    | some (w, t) => acquireCalls maxRequests windowMs fuel n w t

/-- `RateLimiter.reset`. -/
def rateLimiterReset (_requests : List Int) : List Int := []

/-! ## Wallet layer (`src/wallet.ts`, the two adapters) -/

/-- `WalletConnectionInfo` from `src/types.ts`: `accountId: string`,
`network: string`, `publicKey?: string`. -/
structure WalletConnectionInfo where
  accountId : String
  network : String
  publicKey : Option String
deriving DecidableEq

/-- The observable behaviour of a `WalletAdapter`
(`src/wallet/WalletAdapter.ts`) as the `WalletManager` drives it: the
result of `isAvailable()` and the settled outcomes of the async
`connect`, `disconnect` and `requestTransaction` calls (`Except.error`
is a rejected promise). Transaction bytes are byte lists. -/
structure AdapterModel where
  isAvailable : Bool
  connect : Except String WalletConnectionInfo
  disconnect : Except String Unit
  requestTransaction : List Nat → Except String (List Nat)

/-- The `WalletManager`'s own mutable state: `connectionInfo`, the single
nullable connection record. -/
structure ManagerState where
  connectionInfo : Option WalletConnectionInfo
deriving DecidableEq

/-- `WalletManager.isConnected`. -/
def isConnected (s : ManagerState) : Bool :=
  s.connectionInfo.isSome

/-- Outcome of `WalletManager.connect`: the state afterwards, the
promise outcome, and whether `adapter.connect` was invoked. -/
structure ConnectOutcome where
  state : ManagerState
  result : Except String WalletConnectionInfo
  adapterConnectInvoked : Bool

/-- `WalletManager.connect`: throw without touching the adapter when
`adapter.isAvailable()` is false; otherwise await `adapter.connect`, and
on success store the returned record and return it (on rejection the
error propagates with the state untouched). -/
def managerConnect (a : AdapterModel) (s : ManagerState) : ConnectOutcome :=
  if !a.isAvailable then
    { state := s,
      result := .error "No wallet provider available for the configured adapter",
      adapterConnectInvoked := false }
  else
    match a.connect with
    | .error e => { state := s, result := .error e, adapterConnectInvoked := true }
    | .ok info =>
      { state := { connectionInfo := some info }, result := .ok info,
        adapterConnectInvoked := true }

/-- `WalletManager.connectHashPack`, the backwards-compatible alias:
`return this.connect()`. -/
def managerConnectHashPack (a : AdapterModel) (s : ManagerState) : ConnectOutcome :=
  managerConnect a s

/-- `WalletManager.disconnect`: `await this.adapter.disconnect();
this.connectionInfo = null;` — there is no try/catch, so a rejection
from the adapter propagates before the record is cleared. -/
def managerDisconnect (a : AdapterModel) (s : ManagerState) :
    ManagerState × Except String Unit :=
  match a.disconnect with
  | .error e => (s, .error e)
  | .ok _ => ({ connectionInfo := none }, .ok ())

/-- `WalletManager.requestTransaction`: throw `'Wallet not connected'`
when no record is held, otherwise delegate the bytes to the adapter.
The boolean records whether `adapter.requestTransaction` was invoked. -/
def managerRequestTransaction (a : AdapterModel) (s : ManagerState)
    (tx : List Nat) : ManagerState × Except String (List Nat) × Bool :=
  if !isConnected s then (s, .error "Wallet not connected", false)
  else (s, a.requestTransaction tx, true)

/-- `WalletManager.restoreConnection`, with `JSON.parse` abstracted as a
function returning `Except` (a thrown `SyntaxError` is `.error`): when
the slot is empty or holds a falsy string (only `''`), fall through and
return null with the slot untouched; when parsing succeeds, adopt the
parsed record; when parsing throws, catch, clear the slot, return null.
Returns (new manager state, new storage slot, returned value). -/
def restoreConnection (parse : String → Except String WalletConnectionInfo)
    (storage : Option String) (s : ManagerState) :
    ManagerState × Option String × Option WalletConnectionInfo :=
  match storage with
  | none => (s, none, none)
  | some stored =>
    if stored == "" then (s, some stored, none)
    else
      match parse stored with
      | .ok info => ({ connectionInfo := some info }, some stored, some info)
      | .error _ => (s, none, none)

/-- `WalletManager.init`: forward to the adapter's `init` when present
(a rejection there propagates), then `restoreConnection()`. Returns the
settled outcome carrying the state and storage after the restore. -/
def managerInit (adapterInit : Option (Except String Unit))
    (parse : String → Except String WalletConnectionInfo)
    (storage : Option String) (s : ManagerState) :
    Except String (ManagerState × Option String) :=
  match adapterInit with
  | some (.error e) => .error e
  | _ =>
    let r := restoreConnection parse storage s
    .ok (r.1, r.2.1)

/-- The fields of the result returned by a HashPack provider's connect
method (`HashPackConnectResult` in `HashConnectAdapter.ts`). -/
structure HashPackConnectResult where
  accountIds : List String
  network : Option String
  publicKey : Option String

/-- The record-building tail of `HashConnectAdapter.connect`, after the
provider injection was found and its connect method discovered and
awaited with result `r`: reject when `accountIds` is missing/empty, else
adopt the first account verbatim and `result.network || 'testnet'`
(JavaScript `||`: the default also replaces an empty string). The
returned record is also what is persisted to the storage slot. -/
def hashConnectBuildInfo (r : HashPackConnectResult) :
    Except String WalletConnectionInfo :=
  match r.accountIds with
  | [] => .error "No accounts returned by HashPack"
  | first :: _ =>
    .ok { accountId := first,
          network := match r.network with
            | some n => if n == "" then "testnet" else n
            | none => "testnet",
          publicKey := r.publicKey }

/-- `HashConnectAdapter.disconnect`: the provider's `disconnect()` call
is wrapped in try/catch with every error ignored, then the storage slot
is removed; the promise always resolves. `providerOutcome` is the
outcome of the provider call when one happened. -/
def hashConnectDisconnect (providerOutcome : Option (Except String Unit))
    (_storage : Option String) : Except String Unit × Option String :=
  let _ignored : Unit :=
    match providerOutcome with
    | some (.error _) => ()
    | some (.ok _) => ()
    | none => ()
  (.ok (), none)

/-- JavaScript `str.split(sep)` for a one-character separator, on char
lists: splitting never yields the empty list, and `''.split(sep)` is
`['']`. -/
def splitOnChar (sep : Char) : List Char → List (List Char)
  | [] => [[]]
  | c :: rest =>
    let r := splitOnChar sep rest
    if c == sep then [] :: r
    else
      match r with
      | [] => [[c]]
      | h :: t => (c :: h) :: t

/-- The record-building tail of `WalletConnectAdapter.connect`, given
the first account string of the negotiated session's hedera namespace
(e.g. `'hedera:testnet:0.0.123'`): split on `':'`, force the network to
`'mainnet'` or `'testnet'`, and adopt the third segment verbatim as the
account id (no shape validation). -/
def walletConnectBuildInfo (accountStr : String) : WalletConnectionInfo :=
  let parts := (splitOnChar ':' accountStr.data).map String.mk
  { accountId := parts.getD 2 "",
    network := if parts.getD 1 "" == "mainnet" then "mainnet" else "testnet",
    publicKey := none }

/-! ## Specification-side predicates for the sanitization claims -/

mutual
/-- Spec-side check (claim wording): every string value at every nesting
depth of a value — arrays included — is free of control bytes. -/
def valueControlFree : JSValue → Bool
  | .str s => s.data.all (fun c => !isControlByte c)
  | .arr vs => valuesControlFree vs
  | .obj kvs => fieldsControlFree kvs
  | .num _ => true
  | .bool _ => true
  | .null => true

/-- `valueControlFree` over an array's elements. -/
def valuesControlFree : List JSValue → Bool
  | [] => true
  | v :: vs => valueControlFree v && valuesControlFree vs

/-- `valueControlFree` over a record's values. -/
def fieldsControlFree : List (String × JSValue) → Bool
  | [] => true
  | (_, v) :: kvs => valueControlFree v && fieldsControlFree kvs
end

mutual
/-- Every string value reachable from a record through nested plain
records only (not through arrays) is free of control bytes. -/
def recordStringsClean : List (String × JSValue) → Bool
  | [] => true
  | (_, v) :: kvs => entryClean v && recordStringsClean kvs

/-- The per-value part of `recordStringsClean`. -/
def entryClean : JSValue → Bool
  | .str s => s.data.all (fun c => !isControlByte c)
  | .obj kvs => recordStringsClean kvs
  | .num _ => true
  | .bool _ => true
  | .null => true
  | .arr _ => true
end

/-- The entries of `sensitiveKeys` that can actually match: a lowercased
key never contains an uppercase letter, so the three mixed-case entries
`'apiKey'`, `'privateKey'`, `'operatorKey'` are dead and the remaining
ten entries carry the whole predicate. -/
def effectiveSensitiveKeys : List String :=
  ["api_key", "apikey",
   "private_key", "privatekey",
   "operator_key",
   "password", "secret", "token",
   "authorization", "auth"]

/-! ## Concrete fixtures used by witnesses and counterexamples -/

/-- The inline fallback adapter stub the `WalletManager` constructor
installs when neither an adapter nor a project id is supplied. -/
def stubAdapter : AdapterModel :=
  { isAvailable := false,
    connect := .error "No wallet adapter configured",
    disconnect := .ok (),
    requestTransaction := fun _ => .error "No wallet adapter configured" }

/-- A connection record as a HashPack provider would yield it. -/
def sampleInfo : WalletConnectionInfo :=
  { accountId := "0.0.12345", network := "testnet", publicKey := none }

/-- An available adapter that connects successfully to `sampleInfo` and
echoes transaction bytes. -/
def okAdapter : AdapterModel :=
  { isAvailable := true,
    connect := .ok sampleInfo,
    disconnect := .ok (),
    requestTransaction := fun tx => .ok tx }

/-- An adapter whose `disconnect` promise rejects. -/
def rejectingDisconnectAdapter : AdapterModel :=
  { isAvailable := true,
    connect := .ok sampleInfo,
    disconnect := .error "provider disconnect rejected",
    requestTransaction := fun tx => .ok tx }

/-- A HashPack connect result carrying an account id and network that
violate the Connection Record shape. -/
def bogusHashPackResult : HashPackConnectResult :=
  { accountIds := ["bogus-account"], network := some "previewnet",
    publicKey := none }

/-- An adapter behaving like `HashConnectAdapter` when the provider
answers `connect` with `bogusHashPackResult`. -/
def bogusHashPackAdapter : AdapterModel :=
  { isAvailable := true,
    connect := hashConnectBuildInfo bogusHashPackResult,
    disconnect := .ok (),
    requestTransaction := fun tx => .ok tx }

example : strToLower "operatorKey" = "operatorkey" := by decide
example : strIncludes "operatorkey" "operator_key" = false := by decide
example : isSensitiveKey "operatorKey" = false := by decide
example : isSensitiveKey "apiKey" = true := by decide
example : isValidAccountId "0.0.12345" = true := by decide
example : isValidAccountId "bogus-account" = false := by decide
example : walletConnectBuildInfo "hedera:testnet:0.0.5" =
    { accountId := "0.0.5", network := "testnet", publicKey := none } := by decide
example : runRequest defaultRetryOptions 0 [503, 503, 503, 200] =
    (some 200, 3, [1000, 2000, 4000]) := by decide
example : runRequest defaultRetryOptions 0 [404, 200] = (none, 0, []) := by decide
example : acquireCalls 5 1000 5 10 [] 0 =
    some ([1000, 1000, 1000, 1000, 1000], 1000) := by decide

/-! ## Claim theorems -/

/-- C1: an outbound request's failed attempt is retried iff (no response
was received, or the transport code is the timeout code `ECONNABORTED`,
or the status is in `[500,600)`, or the status is `429`) and the
config's private attempt counter is strictly below `maxRetries` (default
3); a request answered with `404` is never retried, and a transport
answering `503, 503, 503, 200` succeeds after exactly 3 retries. -/
theorem C1_retry_policy :
    (∀ (opts : RetryOptions) (e : AxiosErrorModel) (n : Nat),
      e.isAxiosError = true → e.config = some n →
      (shouldRetry opts e = true ↔
        ((e.responseStatus = none ∨ e.code = some "ECONNABORTED" ∨
          (∃ s, e.responseStatus = some s ∧ ((500 ≤ s ∧ s < 600) ∨ s = 429))) ∧
         n < opts.maxRetries))) ∧
    runRequest defaultRetryOptions 0 [404, 200] = (none, 0, []) ∧
    runRequest defaultRetryOptions 0 [503, 503, 503, 200] =
      (some 200, 3, [1000, 2000, 4000]) ∧
    runRequest defaultRetryOptions 0 [503, 503, 503, 503] =
      (none, 3, [1000, 2000, 4000]) := by
  refine ⟨?_, by decide, by decide, by decide⟩
  intro opts e n hax hcf
  obtain ⟨ax, resp, code, cfg⟩ := e
  simp only at hax hcf
  subst hax hcf
  by_cases hn : n < opts.maxRetries
  · cases resp with
    | none => simp [shouldRetry, hn, Nat.not_le.mpr hn]
    | some s => simp [shouldRetry, hn, Nat.not_le.mpr hn]
  · simp [shouldRetry, Nat.le_of_not_lt hn, hn]

/-- Witness for C1: the retry characterization applied to a concrete
`503` error whose counter is 0, under the default options. -/
theorem C1_retry_policy_witness :
    shouldRetry defaultRetryOptions
      { isAxiosError := true, responseStatus := some 503, code := none,
        config := some 0 } = true ↔
    (((some 503 : Option Nat) = none ∨
      (none : Option String) = some "ECONNABORTED" ∨
      (∃ s, (some 503 : Option Nat) = some s ∧ ((500 ≤ s ∧ s < 600) ∨ s = 429))) ∧
     0 < defaultRetryOptions.maxRetries) :=
  C1_retry_policy.1 defaultRetryOptions
    { isAxiosError := true, responseStatus := some 503, code := none,
      config := some 0 } 0 rfl rfl

/-- C2: the delay slept before retry `i` (1-indexed; index `j = i - 1`
into the recorded delay list of a run started at counter 0) equals
`min(baseDelay * exponentialBase^(i-1), maxDelay)`; every slept delay is
capped at `maxDelay`; with the defaults the first three retry delays are
1000ms, 2000ms, 4000ms. -/
theorem C2_backoff_delays :
    (∀ (opts : RetryOptions) (count : Nat) (transport : List Nat) (j : Nat),
      j < (runRequest opts count transport).2.2.length →
      (runRequest opts count transport).2.2.getD j 0 =
        min (opts.baseDelay * opts.exponentialBase ^ (count + j)) opts.maxDelay) ∧
    (∀ (opts : RetryOptions) (count : Nat) (transport : List Nat) (d : Nat),
      d ∈ (runRequest opts count transport).2.2 → d ≤ opts.maxDelay) ∧
    (runRequest defaultRetryOptions 0 [503, 503, 503, 200]).2.2 =
      [1000, 2000, 4000] := by
  refine ⟨?_, ?_, by decide⟩
  · intro opts count transport
    induction transport generalizing count with
    | nil => intro j hj; simp [runRequest] at hj
    | cons s rest ih =>
      intro j hj
      by_cases hs : isSuccessStatus s
      · simp [runRequest, hs] at hj
      · by_cases hr : shouldRetry opts
            { isAxiosError := true, responseStatus := some s,
              code := none, config := some count }
        · cases j with
          | zero =>
            simp [runRequest, hs, hr, retryDelay]
          | succ j =>
            simp only [runRequest, hs, hr, if_false, if_true, Bool.false_eq_true,
              List.getD_cons_succ]
            have hlen : j < (runRequest opts (count + 1) rest).2.2.length := by
              simp [runRequest, hs, hr] at hj
              omega
            have harith : count + 1 + j = count + (j + 1) := by omega
            rw [ih (count + 1) j hlen, harith]
        · simp [runRequest, hs, hr] at hj
  · intro opts count transport
    induction transport generalizing count with
    | nil => intro d hd; simp [runRequest] at hd
    | cons s rest ih =>
      intro d hd
      by_cases hs : isSuccessStatus s
      · simp [runRequest, hs] at hd
      · by_cases hr : shouldRetry opts
            { isAxiosError := true, responseStatus := some s,
              code := none, config := some count }
        · simp only [runRequest, hs, hr, if_true, if_false, Bool.false_eq_true,
            List.mem_cons] at hd
          rcases hd with h | h
          · subst h; exact Nat.min_le_right _ _
          · exact ih (count + 1) d h
        · simp [runRequest, hs, hr] at hd

/-- Witness for C2: the first retry delay of a concrete default-options
run equals `min(1000 * 2^0, 30000)`. -/
theorem C2_backoff_delays_witness :
    (runRequest defaultRetryOptions 0 [503, 200]).2.2.getD 0 0 =
      min (defaultRetryOptions.baseDelay *
           defaultRetryOptions.exponentialBase ^ (0 + 0))
        defaultRetryOptions.maxDelay :=
  C2_backoff_delays.1 defaultRetryOptions 0 [503, 200] 0 (by decide)

/-- C3: each `acquire()` entry first discards grant timestamps outside
`windowMs`; with fewer than `maxRequests` remaining it records `now` and
grants immediately, otherwise it suspends for
`windowMs - (now - oldestRemainingGrant)` and retries; 10 sequential
calls with `maxRequests = 5, windowMs = 1000` starting at time 0 end at
time 1000 (≥ 1000ms of wall time); `reset()` empties the window. -/
theorem C3_rate_limiter :
    (∀ (maxRequests : Nat) (windowMs : Int) (requests : List Int) (now : Int),
      ((requests.filter (fun t => now - t < windowMs)).length < maxRequests →
        acquireStep maxRequests windowMs requests now =
          .granted (requests.filter (fun t => now - t < windowMs) ++ [now])) ∧
      (maxRequests ≤ (requests.filter (fun t => now - t < windowMs)).length →
        acquireStep maxRequests windowMs requests now =
          .waitThenRetry
            (windowMs -
              (now - (requests.filter (fun t => now - t < windowMs)).headD 0))
            (requests.filter (fun t => now - t < windowMs)))) ∧
    acquireCalls 5 1000 5 10 [] 0 =
      some ([1000, 1000, 1000, 1000, 1000], 1000) ∧
    (∀ requests, rateLimiterReset requests = []) := by
  refine ⟨?_, by decide, fun _ => rfl⟩
  intro mr wm reqs now
  constructor
  · intro h
    unfold acquireStep
    rw [if_neg (by omega)]
  · intro h
    unfold acquireStep
    rw [if_pos (by omega)]

/-- Witness for C3: the immediate-grant branch applied to an empty
window with capacity 1 at time 0. -/
theorem C3_rate_limiter_witness :
    acquireStep 1 1000 [] 0 =
      .granted (List.filter (fun t => (0 : Int) - t < 1000) [] ++ [0]) :=
  (C3_rate_limiter.1 1 1000 [] 0).1 (by decide)

/-- C4: when `adapter.isAvailable()` is false, `connect()` (and its
alias `connectHashPack()`) rejects immediately, never invokes
`adapter.connect`, and leaves the stored record untouched; when it is
true, `connect()` delegates and adopts the returned record. -/
theorem C4_connect_gate :
    (∀ (a : AdapterModel) (s : ManagerState), a.isAvailable = false →
      managerConnect a s =
        { state := s,
          result :=
            .error "No wallet provider available for the configured adapter",
          adapterConnectInvoked := false }) ∧
    (∀ (a : AdapterModel) (s : ManagerState) (info : WalletConnectionInfo),
      a.isAvailable = true → a.connect = .ok info →
      managerConnect a s =
        { state := { connectionInfo := some info }, result := .ok info,
          adapterConnectInvoked := true }) ∧
    (∀ (a : AdapterModel) (s : ManagerState),
      managerConnectHashPack a s = managerConnect a s) := by
  refine ⟨?_, ?_, fun _ _ => rfl⟩
  · intro a s h
    simp [managerConnect, h]
  · intro a s info hav hc
    simp [managerConnect, hav, hc]

/-- Witness for C4: the unavailable branch applied to the constructor's
fallback stub adapter, and the delegating branch applied to a concrete
available adapter. -/
theorem C4_connect_gate_witness :
    managerConnect stubAdapter { connectionInfo := none } =
      { state := { connectionInfo := none },
        result :=
          .error "No wallet provider available for the configured adapter",
        adapterConnectInvoked := false } ∧
    managerConnect okAdapter { connectionInfo := none } =
      { state := { connectionInfo := some sampleInfo },
        result := .ok sampleInfo, adapterConnectInvoked := true } :=
  ⟨C4_connect_gate.1 stubAdapter { connectionInfo := none } rfl,
   C4_connect_gate.2.1 okAdapter { connectionInfo := none } sampleInfo rfl rfl⟩

/-- C5 counterexample: against an adapter whose `disconnect` rejects,
`WalletManager.disconnect` — which has no try/catch — propagates the
rejection and does not clear the connection record, so afterwards
`isConnected()` is still true, contradicting the claim that the
manager's disconnect tolerates adapter failure and unconditionally
clears local state. -/
theorem C5_counterexample :
    managerDisconnect rejectingDisconnectAdapter
        { connectionInfo := some sampleInfo } =
      ({ connectionInfo := some sampleInfo },
       .error "provider disconnect rejected") ∧
    isConnected (managerDisconnect rejectingDisconnectAdapter
        { connectionInfo := some sampleInfo }).1 = true :=
  ⟨rfl, rfl⟩

/-- C5 (amended): `disconnect()` awaits the adapter's disconnect and
then clears the record — so for every adapter whose disconnect resolves
the record is cleared and `isConnected()` is false afterwards — but an
adapter-level rejection propagates with the record left in place.
Tolerance of provider-level failure lives inside the adapters:
`HashConnectAdapter.disconnect` wraps the provider call in try/catch,
always resolves, and clears the persisted slot. -/
theorem C5_disconnect_amended :
    (∀ (a : AdapterModel) (s : ManagerState), a.disconnect = .ok () →
      managerDisconnect a s = ({ connectionInfo := none }, .ok ()) ∧
      isConnected (managerDisconnect a s).1 = false) ∧
    (∀ (a : AdapterModel) (s : ManagerState) (e : String),
      a.disconnect = .error e → managerDisconnect a s = (s, .error e)) ∧
    (∀ (providerOutcome : Option (Except String Unit))
       (storage : Option String),
      hashConnectDisconnect providerOutcome storage = (.ok (), none)) := by
  refine ⟨?_, ?_, fun _ _ => rfl⟩
  · intro a s h
    constructor <;> simp [managerDisconnect, h, isConnected]
  · intro a s e h
    simp [managerDisconnect, h]

/-- Witness for C5 (amended): a resolving disconnect clears the record
of a concretely connected manager; a rejecting one propagates. -/
theorem C5_disconnect_amended_witness :
    (managerDisconnect okAdapter { connectionInfo := some sampleInfo } =
       ({ connectionInfo := none }, .ok ()) ∧
     isConnected (managerDisconnect okAdapter
       { connectionInfo := some sampleInfo }).1 = false) ∧
    managerDisconnect rejectingDisconnectAdapter { connectionInfo := none } =
      ({ connectionInfo := none }, .error "provider disconnect rejected") :=
  ⟨C5_disconnect_amended.1 okAdapter { connectionInfo := some sampleInfo } rfl,
   C5_disconnect_amended.2.1 rejectingDisconnectAdapter
     { connectionInfo := none } "provider disconnect rejected" rfl⟩

/-- C6 counterexample: the empty string is a stored value that is not
syntactically valid JSON (`JSON.parse('')` throws), yet `if (stored)`
treats it as absent: `restoreConnection` returns with the slot still
holding `''` — the storage slot is not cleared, contradicting the claim
that every corrupt entry is discarded and its slot cleared. The manager
still ends with no record and no error. -/
theorem C6_counterexample :
    restoreConnection (fun _ => .error "Unexpected end of JSON input")
        (some "") { connectionInfo := none } =
      ({ connectionInfo := none }, some "", none) :=
  rfl

/-- C6 (amended): for every stored non-empty string on which
`JSON.parse` throws, `init()`/`restoreConnection` discards the corrupt
entry, clears the storage slot, leaves the manager's state untouched
(in particular with no record when it had none) and propagates no
error; the empty string is treated as "no prior session" and left in
place, likewise without error or record. -/
theorem C6_restore_amended :
    (∀ (parse : String → Except String WalletConnectionInfo)
       (stored err : String) (s : ManagerState),
      ¬stored = "" → parse stored = .error err →
      restoreConnection parse (some stored) s = (s, none, none)) ∧
    (∀ (parse : String → Except String WalletConnectionInfo)
       (s : ManagerState),
      restoreConnection parse (some "") s = (s, some "", none)) ∧
    (∀ (parse : String → Except String WalletConnectionInfo)
       (stored err : String),
      ¬stored = "" → parse stored = .error err →
      managerInit (some (.ok ())) parse (some stored)
          { connectionInfo := none } =
        .ok ({ connectionInfo := none }, none)) := by
  refine ⟨?_, ?_, ?_⟩
  · intro parse stored err s hne hp
    simp [restoreConnection, hne, hp]
  · intro parse s
    simp [restoreConnection]
  · intro parse stored err hne hp
    simp [managerInit, restoreConnection, hne, hp]

/-- Witness for C6 (amended): a concrete malformed blob `not json` under
a parse function that rejects it is discarded, its slot cleared, and
`init()` resolves with no record. -/
theorem C6_restore_amended_witness :
    managerInit (some (.ok ()))
        (fun _ => .error "Unexpected token n in JSON") (some "not json")
        { connectionInfo := none } =
      .ok ({ connectionInfo := none }, none) :=
  C6_restore_amended.2.2 (fun _ => .error "Unexpected token n in JSON")
    "not json" "Unexpected token n in JSON" (by decide) rfl

/-- C10: with no connection record, `requestTransaction` rejects with
`'Wallet not connected'` without invoking the adapter and without
changing state; with a record present it delegates the bytes to the
adapter and returns the adapter's result. -/
theorem C10_request_transaction :
    (∀ (a : AdapterModel) (s : ManagerState) (tx : List Nat),
      s.connectionInfo = none →
      managerRequestTransaction a s tx =
        (s, .error "Wallet not connected", false)) ∧
    (∀ (a : AdapterModel) (s : ManagerState) (info : WalletConnectionInfo)
       (tx : List Nat),
      s.connectionInfo = some info →
      managerRequestTransaction a s tx = (s, a.requestTransaction tx, true)) := by
  constructor
  · intro a s tx h
    simp [managerRequestTransaction, isConnected, h]
  · intro a s info tx h
    simp [managerRequestTransaction, isConnected, h]

/-- Witness for C10: a disconnected manager rejects a concrete
transaction; a connected one delegates it to the echoing adapter. -/
theorem C10_request_transaction_witness :
    managerRequestTransaction okAdapter { connectionInfo := none } [1, 2, 3] =
      ({ connectionInfo := none }, .error "Wallet not connected", false) ∧
    managerRequestTransaction okAdapter { connectionInfo := some sampleInfo }
        [1, 2, 3] =
      ({ connectionInfo := some sampleInfo },
       okAdapter.requestTransaction [1, 2, 3], true) :=
  ⟨C10_request_transaction.1 okAdapter { connectionInfo := none } [1, 2, 3] rfl,
   C10_request_transaction.2 okAdapter { connectionInfo := some sampleInfo }
     sampleInfo [1, 2, 3] rfl⟩

/-- C7 counterexample: a HashPack provider answering with account
`'bogus-account'` and network `'previewnet'` yields a connection record
violating both shape constraints — the adapters validate neither the
account id against `^0\.0\.\d+$` nor the network against
`testnet|mainnet` — and `connect()` adopts it as the manager's current
record. -/
theorem C7_counterexample :
    hashConnectBuildInfo bogusHashPackResult =
      .ok { accountId := "bogus-account", network := "previewnet",
            publicKey := none } ∧
    (managerConnect bogusHashPackAdapter { connectionInfo := none }).state =
      { connectionInfo :=
          some { accountId := "bogus-account", network := "previewnet",
                 publicKey := none } } ∧
    isValidAccountId "bogus-account" = false ∧
    isValidNetwork "previewnet" = false :=
  ⟨rfl, rfl, by decide, by decide⟩

/-- C7 (amended): at most one record is active per manager — every
`connect` either leaves the state unchanged or replaces the single slot
with exactly the adapter's record, and `disconnect` leaves it or clears
it — and `WalletConnectAdapter` always produces a network in
`{testnet, mainnet}`; but the account id is adopted verbatim from the
provider and `HashConnectAdapter` adopts the provider's network
verbatim (defaulting to `'testnet'` only when absent or empty), so the
regex/network shape of adopted records is not enforced at runtime. -/
theorem C7_record_shape_amended :
    (∀ (r : HashPackConnectResult) (info : WalletConnectionInfo),
      hashConnectBuildInfo r = .ok info →
      (∃ rest, r.accountIds = info.accountId :: rest) ∧
      (r.network = some info.network ∨ info.network = "testnet")) ∧
    (∀ acct : String,
      isValidNetwork (walletConnectBuildInfo acct).network = true) ∧
    (∀ (a : AdapterModel) (s : ManagerState),
      (managerConnect a s).state = s ∨
      ∃ info, a.connect = .ok info ∧
        (managerConnect a s).state = { connectionInfo := some info }) ∧
    (∀ (a : AdapterModel) (s : ManagerState),
      (managerDisconnect a s).1 = s ∨
      (managerDisconnect a s).1 = { connectionInfo := none }) := by
  refine ⟨?_, ?_, ?_, ?_⟩
  · intro r info h
    obtain ⟨ids, net, pk⟩ := r
    cases ids with
    | nil => simp [hashConnectBuildInfo] at h
    | cons first rest =>
      simp only [hashConnectBuildInfo, Except.ok.injEq] at h
      subst h
      refine ⟨⟨rest, rfl⟩, ?_⟩
      cases net with
      | none => exact Or.inr rfl
      | some n =>
        by_cases hn : n == ""
        · simp [hn]
        · simp [hn]
  · intro acct
    simp only [walletConnectBuildInfo, isValidNetwork]
    split <;> rfl
  · intro a s
    by_cases hav : a.isAvailable
    · cases hc : a.connect with
      | error e => exact Or.inl (by simp [managerConnect, hav, hc])
      | ok info => exact Or.inr ⟨info, rfl, by simp [managerConnect, hav, hc]⟩
    · exact Or.inl (by simp [managerConnect, hav])
  · intro a s
    cases hd : a.disconnect with
    | error e => exact Or.inl (by simp [managerDisconnect, hd])
    | ok u => exact Or.inr (by simp [managerDisconnect, hd])

/-- Witness for C7 (amended): the HashPack record characterization at
the concrete bogus provider result, and the WalletConnect network
constraint at a concrete session account string. -/
theorem C7_record_shape_amended_witness :
    ((∃ rest, bogusHashPackResult.accountIds = "bogus-account" :: rest) ∧
     (bogusHashPackResult.network = some "previewnet" ∨
      ("previewnet" : String) = "testnet")) ∧
    isValidNetwork (walletConnectBuildInfo "hedera:testnet:0.0.5").network =
      true :=
  ⟨C7_record_shape_amended.1 bogusHashPackResult
     { accountId := "bogus-account", network := "previewnet",
       publicKey := none } rfl,
   C7_record_shape_amended.2.1 "hedera:testnet:0.0.5"⟩

/-- A Boolean filter applied twice equals the filter applied once. -/
theorem filter_idem (p : α → Bool) :
    ∀ l : List α, (l.filter p).filter p = l.filter p
  | [] => rfl
  | a :: l => by
    by_cases h : p a <;> simp [List.filter_cons, h, filter_idem p l]

/-- Every element surviving a Boolean filter satisfies the filter. -/
theorem filter_all (p : α → Bool) : ∀ l : List α, (l.filter p).all p = true
  | [] => rfl
  | a :: l => by
    by_cases h : p a <;> simp [List.filter_cons, h, filter_all p l]

/-- Stripping control characters is idempotent. -/
theorem stripControlChars_idem (s : String) :
    stripControlChars (stripControlChars s) = stripControlChars s := by
  unfold stripControlChars
  exact congrArg String.mk (filter_idem _ s.data)

mutual
/-- `sanitizeEntry` is idempotent. -/
theorem sanitizeEntry_idem : ∀ v, sanitizeEntry (sanitizeEntry v) = sanitizeEntry v
  | .str s => congrArg JSValue.str (stripControlChars_idem s)
  | .obj kvs => congrArg JSValue.obj (sanitizeEventData_idem kvs)
  | .num _ => rfl
  | .bool _ => rfl
  | .null => rfl
  | .arr _ => rfl

/-- `sanitizeEventData` is idempotent. -/
theorem sanitizeEventData_idem :
    ∀ d, sanitizeEventData (sanitizeEventData d) = sanitizeEventData d
  | [] => rfl
  | (k, v) :: rest => by
    simp only [sanitizeEventData]
    rw [sanitizeEntry_idem v, sanitizeEventData_idem rest]
end

mutual
/-- Sanitized entries have control-free strings at all record depths. -/
theorem entryClean_sanitizeEntry : ∀ v, entryClean (sanitizeEntry v) = true
  | .str s => filter_all _ s.data
  | .obj kvs => recordStringsClean_sanitize kvs
  | .num _ => rfl
  | .bool _ => rfl
  | .null => rfl
  | .arr _ => rfl

/-- Sanitized records have control-free strings at all record depths. -/
theorem recordStringsClean_sanitize :
    ∀ d, recordStringsClean (sanitizeEventData d) = true
  | [] => rfl
  | (k, v) :: rest => by
    simp only [sanitizeEventData, recordStringsClean]
    rw [entryClean_sanitizeEntry v, recordStringsClean_sanitize rest]
    rfl
end

/-- C8 counterexample: a record holding an array that contains a string
with the control byte `0x00` passes through `sanitizeEventData`
unchanged (the `!Array.isArray(value)` guard skips arrays), so the
sanitized output still contains a control byte at nesting depth 2,
refuting "removes every byte in `[0x00-0x1F, 0x7F]` from every string
value at every nesting depth". -/
theorem C8_counterexample :
    sanitizeEventData [("a", .arr [.str (String.mk ['\x00', 'x'])])] =
      [("a", .arr [.str (String.mk ['\x00', 'x'])])] ∧
    fieldsControlFree
      (sanitizeEventData [("a", .arr [.str (String.mk ['\x00', 'x'])])]) =
      false :=
  ⟨rfl, rfl⟩

/-- C8 (amended): `sanitizeEventData` is idempotent, and it removes
every byte in `[0x00-0x1F, 0x7F]` from every string value at every
nesting depth reachable through nested plain records — strings inside
array values are passed through unchanged. -/
theorem C8_sanitize_amended :
    (∀ d, sanitizeEventData (sanitizeEventData d) = sanitizeEventData d) ∧
    (∀ d, recordStringsClean (sanitizeEventData d) = true) :=
  ⟨sanitizeEventData_idem, recordStringsClean_sanitize⟩

/-- `charToLower` never yields the uppercase letter `K`. -/
theorem charToLower_ne_K (c : Char) : ¬charToLower c = 'K' := by
  unfold charToLower
  split <;> simp_all

/-- A lowercased string never contains `K` — so no `sensitiveKeys`
entry spelled with an uppercase `K` can ever match. -/
theorem not_mem_strToLower_K (s : String) : 'K' ∉ (strToLower s).data := by
  unfold strToLower
  intro h
  obtain ⟨c, -, hc⟩ := List.mem_map.mp h
  exact charToLower_ne_K c hc

/-- If a prefix match succeeds, every character of the needle occurs in
the haystack. -/
theorem charsStartWith_mem :
    ∀ (needle hay : List Char), charsStartWith hay needle = true →
      ∀ c ∈ needle, c ∈ hay := by
  intro needle
  induction needle with
  | nil => intro hay _ c hc; cases hc
  | cons b bs ih =>
    intro hay h c hc
    cases hay with
    | nil => simp [charsStartWith] at h
    | cons a as =>
      simp only [charsStartWith, Bool.and_eq_true, beq_iff_eq] at h
      obtain ⟨rfl, hrest⟩ := h
      rcases List.mem_cons.mp hc with rfl | hc'
      · exact List.mem_cons_self _ _
      · exact List.mem_cons_of_mem _ (ih as hrest c hc')

/-- If a substring match succeeds, every character of the needle occurs
in the haystack. -/
theorem charsContain_mem :
    ∀ (hay needle : List Char), charsContain hay needle = true →
      ∀ c ∈ needle, c ∈ hay := by
  intro hay
  induction hay with
  | nil =>
    intro needle h c hc
    cases needle with
    | nil => cases hc
    | cons b bs => simp [charsContain, charsStartWith] at h
  | cons a t ih =>
    intro needle h c hc
    simp only [charsContain, Bool.or_eq_true] at h
    rcases h with h | h
    · exact charsStartWith_mem needle (a :: t) h c hc
    · exact List.mem_cons_of_mem _ (ih needle h c hc)

/-- A needle containing `K` never occurs inside a lowercased key. -/
theorem strIncludes_toLower_of_K (k needle : String)
    (hK : 'K' ∈ needle.data) : strIncludes (strToLower k) needle = false := by
  cases h : strIncludes (strToLower k) needle with
  | false => rfl
  | true =>
    exact absurd (charsContain_mem _ _ h 'K' hK) (not_mem_strToLower_K k)

/-- The three mixed-case entries of `sensitiveKeys` (`apiKey`,
`privateKey`, `operatorKey`) are dead: on every key the predicate
coincides with matching only the ten all-lowercase entries. -/
theorem isSensitiveKey_effective (k : String) :
    isSensitiveKey k =
      effectiveSensitiveKeys.any (fun sk => strIncludes (strToLower k) sk) := by
  unfold isSensitiveKey sensitiveKeys effectiveSensitiveKeys
  simp only [List.any_cons, List.any_nil]
  rw [strIncludes_toLower_of_K k "apiKey" (by decide),
      strIncludes_toLower_of_K k "privateKey" (by decide),
      strIncludes_toLower_of_K k "operatorKey" (by decide)]
  simp only [Bool.false_or]

/-- `redactSensitiveData` preserves keys and order, transforming each
value through `redactEntry` of its own key only. -/
theorem redactSensitiveData_map :
    ∀ d, redactSensitiveData d = d.map (fun kv => (kv.1, redactEntry kv.1 kv.2))
  | [] => rfl
  | (k, v) :: rest => by
    simp only [redactSensitiveData, List.map_cons]
    rw [redactSensitiveData_map rest]

/-- C9 counterexample: the key `operatorKey` case-insensitively contains
the listed needle `operatorKey` (its lowercase form contains the
needle's lowercase form), yet `redactSensitiveData` leaves its value
untouched: the list entry `'operatorKey'` can never match a lowercased
key, and no all-lowercase entry covers `operatorkey`. -/
theorem C9_counterexample :
    strIncludes (strToLower "operatorKey") (strToLower "operatorKey") = true ∧
    redactSensitiveData [("operatorKey", .str "302e020100")] =
      [("operatorKey", .str "302e020100")] :=
  ⟨by decide, rfl⟩

/-- C9 (amended): `redactSensitiveData` replaces with the `[REDACTED]`
marker the values of exactly those keys whose lowercased form contains
one of the ten all-lowercase needles {api_key, apikey, private_key,
privatekey, operator_key, password, secret, token, authorization, auth}
— the mixed-case list entries apiKey, privateKey, operatorKey are dead,
so a camelCase `operatorKey` key is NOT redacted — recursing into
nested records and leaving all other keys and values unchanged. -/
theorem C9_redact_amended :
    (∀ k, isSensitiveKey k =
      effectiveSensitiveKeys.any (fun sk => strIncludes (strToLower k) sk)) ∧
    (∀ d, redactSensitiveData d =
      d.map (fun kv => (kv.1, redactEntry kv.1 kv.2))) ∧
    isSensitiveKey "operatorKey" = false ∧
    isSensitiveKey "operator_key" = true ∧
    isSensitiveKey "myApiKey" = true ∧
    redactEntry "password" (.str "hunter2") = .str "[REDACTED]" ∧
    redactEntry "username" (.str "alice") = .str "alice" :=
  ⟨isSensitiveKey_effective, redactSensitiveData_map,
   by decide, by decide, by decide, rfl, rfl⟩
